import Mathlib

/-!
Shallow embedding of the data model and operations of
`src/meta_backend_eng_api_final/API/resources/models.py` and
`src/meta_backend_eng_api_final/API/resources/admin.py`
(a Django restaurant-ordering data model), together with theorems settling
the specification claims about it.

Conventions: Django `DecimalField(max_digits=6, decimal_places=2)` columns are
embedded as integers counting hundredths (cents); primary keys and foreign
keys are `Nat` ids; the `deleted_at` timestamp added by the softdelete
package is `Option Nat`. Raising a Python exception is an `Except.error`
outcome, and an operation that errors performs no database writes.
-/

namespace MetaBackend

/-- Python-level errors relevant to the embedded operations: the built-in
exceptions the source can raise (NotImplementedError, AttributeError) and the
typed error taxonomy of the specification (section 7). -/
inductive PyError where
  | notImplementedError
  | attributeError
  | emptyCartError
  | staleCartItemError
  | persistenceError
  | referentialIntegrityError
deriving DecidableEq

/-- Log levels used by the loguru calls in models.py. -/
inductive LogLevel where
  | warning
  | error
deriving DecidableEq

/-- A structured log entry: a level, a message, and an optionally attached
exception (loguru's exc_info argument). -/
structure LogEntry where
  level : LogLevel
  msg : String
  exc : Option PyError
deriving DecidableEq

/-- Category (models.py:25-36): a plain models.Model; it does NOT inherit
SoftDeleteObject, so it carries no deleted flag. -/
structure Category where
  id : Nat
  slug : String
  title : String
deriving DecidableEq

/-- MenuItem (models.py:39-52): inherits SoftDeleteObject; price is a
2-decimal DecimalField embedded as cents; category is a foreign key declared
with on_delete=PROTECT (models.py:43). -/
structure MenuItem where
  id : Nat
  title : String
  price : Int
  featured : Bool
  category : Nat
  deleted_at : Option Nat
deriving DecidableEq

/-- Order (models.py:55-76): inherits SoftDeleteObject; user is a foreign key
with on_delete=CASCADE, delivery_crew a nullable foreign key with
on_delete=SET_NULL (models.py:56-63); status is a boolean. -/
structure Order where
  id : Nat
  user : Nat
  delivery_crew : Option Nat
  status : Bool
  total : Int
  date : Nat
  deleted_at : Option Nat
deriving DecidableEq

/-- OrderItem (models.py:79-95): inherits SoftDeleteObject; its declared
fields are exactly order, menuitem, quantity, category, unit_price, price
(plus the implicit primary key); there is no title field. The category
foreign key is declared with on_delete=PROTECT (models.py:83). -/
structure OrderItem where
  id : Nat
  order : Nat
  menuitem : Nat
  quantity : Int
  category : Nat
  unit_price : Int
  price : Int
  deleted_at : Option Nat
deriving DecidableEq

/-- Cart (models.py:98-141): inherits SoftDeleteObject; fields user, menuitem,
quantity, unit_price, price; user and menuitem are foreign keys with
on_delete=CASCADE; Meta declares unique_together of menuitem and user
(models.py:141). -/
structure Cart where
  id : Nat
  user : Nat
  menuitem : Nat
  quantity : Int
  unit_price : Int
  price : Int
  deleted_at : Option Nat
deriving DecidableEq

/-- The whole relational state the embedded operations touch: the five model
tables plus the external user table (only ids are needed for users). -/
structure DB where
  users : List Nat
  categories : List Category
  menuItems : List MenuItem
  orders : List Order
  orderItems : List OrderItem
  carts : List Cart
deriving DecidableEq

/-- The model classes of this repository fragment, plus the Django user model
returned by get_user_model(). -/
inductive ModelCls where
  | Category
  | MenuItem
  | Order
  | OrderItem
  | Cart
  | UserModel
deriving DecidableEq

/-- The five data-model entities defined in models.py. -/
def dataModelEntities : List ModelCls :=
  [.Category, .MenuItem, .Order, .OrderItem, .Cart]

/-- The models the loop in admin.py:6-7 passes to admin registration, in
loop order: Cart, Category, Order, OrderItem and the user model. -/
def registeredModels : List ModelCls :=
  [.Cart, .Category, .Order, .OrderItem, .UserModel]

/-- Which classes inherit SoftDeleteObject in models.py: Category does not
(models.py:25), MenuItem, Order, OrderItem and Cart do (models.py:39, 55, 79,
98); the external user model does not. -/
def softDeletable : ModelCls → Bool
  | .Category => false
  | .MenuItem => true
  | .Order => true
  | .OrderItem => true
  | .Cart => true
  | .UserModel => false

/-- A generic soft-deletable record: an id, its payload data, and the
deleted_at timestamp the softdelete package adds. -/
structure SDRecord where
  id : Nat
  data : Int
  deleted_at : Option Nat
deriving DecidableEq

/-- Modelled from the spec: the state change performed by
SoftDeleteObject.delete of the softdelete package (the package source is not
under src/). Per spec section 4.1 the delete marks the record by setting its
deleted timestamp; an already-deleted record is left unchanged. -/
def sdMark (now : Nat) (r : SDRecord) : SDRecord :=
  if r.deleted_at.isSome then r else { r with deleted_at := some now }

/-- Modelled from the spec: SoftDeleteObject.delete as an operation that can
in principle raise; per spec section 4.1 it never raises for an
already-deleted record and only flags the record. -/
def sdDelete (now : Nat) (r : SDRecord) : Except PyError SDRecord :=
  .ok (sdMark now r)

/-- Soft-deleting the record with the given id inside its table: the row is
flagged in place, never physically removed. -/
def deleteInTable (now i : Nat) (rows : List SDRecord) : List SDRecord :=
  rows.map fun r => if r.id = i then sdMark now r else r

/-- Modelled from the spec: the default query surface of the softdelete
package excludes soft-deleted rows. -/
def activeRows (rows : List SDRecord) : List SDRecord :=
  rows.filter fun r => r.deleted_at.isNone

/-- Assignment to Cart.quantity: models.py defines no save override, signal,
or property for Cart, so a Django attribute assignment changes exactly the
assigned field. -/
def Cart.setQuantity (self : Cart) (q : Int) : Cart :=
  { self with quantity := q }

/-- Assignment to Cart.unit_price: as for setQuantity, only the assigned
field changes. -/
def Cart.setUnitPrice (self : Cart) (p : Int) : Cart :=
  { self with unit_price := p }

/-- Cart.reset_cart (models.py:107-130): inside a try block it emits a
warning-level log and calls self.delete(); the outcome of that delete is a
parameter because the softdelete package is not under src/. Any exception
from the delete is caught, logged at error level with the exception attached
(exc_info=e), and the method returns normally. The result carries the
emitted log entries in order; the messages are the source's literal text with
its interpolated user/id context elided. -/
def Cart.reset_cart (self : Cart) (deleteOutcome : Except PyError Unit) :
    Except PyError (List LogEntry) :=
  match deleteOutcome with
  | .ok _ => .ok [⟨.warning, "Soft-Deleteting cart", none⟩]
  | .error e =>
      .ok [⟨.warning, "Soft-Deleteting cart", none⟩,
           ⟨.error, "Error deleting cart", some e⟩]

/-- Cart.checkout (models.py:133-134): the entire body is a single
raise NotImplementedError, so every invocation fails with
NotImplementedError; since it errors before any write, the database is left
exactly as it was. -/
def Cart.checkout (self : Cart) (db : DB) : Except PyError DB :=
  .error .notImplementedError

/-- The active (non-soft-deleted) cart rows of a given user. -/
def activeCartRowsFor (db : DB) (u : Nat) : List Cart :=
  db.carts.filter fun c => c.user == u && c.deleted_at.isNone

/-- True when some MenuItem or OrderItem row still references the category:
both foreign keys are declared with on_delete=PROTECT (models.py:43 and
models.py:83). -/
def categoryReferenced (db : DB) (cid : Nat) : Bool :=
  db.menuItems.any (fun m => m.category == cid) ||
    db.orderItems.any (fun oi => oi.category == cid)

/-- Modelled from the spec: deletion of a Category row. The Django delete
machinery is framework code not under src/; per the on_delete=PROTECT
declarations the delete is rejected while any MenuItem or OrderItem
references the row (the spec names this ReferentialIntegrityError, Django's
ProtectedError); otherwise the row is removed outright, Category not being
soft-deletable. Returns the resulting database and the error, if any. -/
def deleteCategory (db : DB) (cid : Nat) : DB × Option PyError :=
  if categoryReferenced db cid then (db, some .referentialIntegrityError)
  else ({ db with categories := db.categories.filter fun c => c.id != cid },
        none)

/-- Modelled from the spec: the effect of deleting user uid on a single Order
row, per the declared policies (models.py:56-63): on_delete=CASCADE on user
removes the order; on_delete=SET_NULL on delivery_crew nulls that reference
and touches nothing else. -/
def userDeleteOrderEffect (uid : Nat) (o : Order) : Option Order :=
  if o.user = uid then none
  else some { o with delivery_crew :=
                if o.delivery_crew = some uid then none else o.delivery_crew }

/-- Modelled from the spec: Django's user-deletion collector as declared on
the models: Order.user CASCADE, Order.delivery_crew SET_NULL, Cart.user
CASCADE, and OrderItem rows cascade with their removed orders
(OrderItem.order is CASCADE, models.py:80). -/
def deleteUser (db : DB) (uid : Nat) : DB :=
  let removedOrderIds :=
    db.orders.filterMap fun o => if o.user = uid then some o.id else none
  { db with
    users := db.users.filter fun u => u != uid,
    orders := db.orders.filterMap (userDeleteOrderEffect uid),
    orderItems :=
      db.orderItems.filter fun oi => !(removedOrderIds.contains oi.order),
    carts := db.carts.filter fun c => c.user != uid }

/-- Python attribute lookup on an OrderItem instance: the names declared in
models.py:79-86 plus the implicit primary key resolve to their field values;
any other name raises AttributeError. -/
def OrderItem.pyAttr (self : OrderItem) (name : String) : Except PyError Int :=
  if name = "id" then .ok (Int.ofNat self.id)
  else if name = "order" then .ok (Int.ofNat self.order)
  else if name = "menuitem" then .ok (Int.ofNat self.menuitem)
  else if name = "quantity" then .ok self.quantity
  else if name = "category" then .ok (Int.ofNat self.category)
  else if name = "unit_price" then .ok self.unit_price
  else if name = "price" then .ok self.price
  else .error .attributeError

/-- OrderItem.__str__ (models.py:87-88): returns str(self.title), i.e. the
string form of the result of looking up the attribute named title. -/
def OrderItem.str (self : OrderItem) : Except PyError String :=
  (self.pyAttr "title").map toString

/-- The unique_together constraint on menuitem and user declared in Cart.Meta
(models.py:141): it is a database unique constraint, so no two rows of the
table — deleted or not — share the same (menuitem, user) pair. -/
def cartUniqueTogether (rows : List Cart) : Prop :=
  rows.Pairwise fun a b => ¬(a.menuitem = b.menuitem ∧ a.user = b.user)

/-- The cart rows the default (soft-delete-aware) query surface shows. -/
def activeCarts (rows : List Cart) : List Cart :=
  rows.filter fun c => c.deleted_at.isNone

/-- The cart rows belonging to a given (user, menuitem) pair. -/
def cartRowsFor (u m : Nat) (rows : List Cart) : List Cart :=
  rows.filter fun c => c.user == u && c.menuitem == m

/-! Helper lemmas shared by the claim theorems. -/

/-- Marking a record soft-deleted always leaves the deleted flag set. -/
theorem sdMark_deleted_isSome (t : Nat) (r : SDRecord) :
    (sdMark t r).deleted_at.isSome = true := by
  unfold sdMark
  split
  · assumption
  · rfl

/-- Marking an already-deleted record is a no-op. -/
theorem sdMark_of_deleted (t : Nat) (r : SDRecord)
    (h : r.deleted_at.isSome = true) : sdMark t r = r := by
  unfold sdMark
  simp [h]

/-- A list of cart rows with pairwise-distinct (menuitem, user) keys has at
most one row for any fixed (user, menuitem) pair. -/
theorem cartRowsFor_len_le_one (u m : Nat) : ∀ rows : List Cart,
    (rows.Pairwise fun a b => ¬(a.menuitem = b.menuitem ∧ a.user = b.user)) →
    (cartRowsFor u m rows).length ≤ 1 := by
  intro rows
  induction rows with
  | nil => intro _; simp [cartRowsFor]
  | cons a l ih =>
      intro h
      rw [List.pairwise_cons] at h
      obtain ⟨ha, hl⟩ := h
      by_cases hm : (a.user == u && a.menuitem == m) = true
      · have hfl : l.filter (fun c => c.user == u && c.menuitem == m) = [] := by
          rw [List.filter_eq_nil_iff]
          intro b hb hpb
          have hb1 : b.user = u ∧ b.menuitem = m := by
            simpa [Bool.and_eq_true, beq_iff_eq] using hpb
          have ha1 : a.user = u ∧ a.menuitem = m := by
            simpa [Bool.and_eq_true, beq_iff_eq] using hm
          exact ha b hb ⟨ha1.2.trans hb1.2.symm, ha1.1.trans hb1.1.symm⟩
        simp [cartRowsFor, List.filter_cons, hm, hfl]
      · have hle := ih hl
        simpa [cartRowsFor, List.filter_cons, hm] using hle

/-! Claim theorems. -/

/-- C1 counterexample: on a database with no active cart rows for user 0,
invoking Cart.checkout fails with NotImplementedError, not with the
EmptyCartError the claim states. -/
theorem checkout_emptyCartError_counterexample :
    activeCartRowsFor (DB.mk [] [] [] [] [] []) 0 = [] ∧
    Cart.checkout (Cart.mk 0 0 0 0 0 0 none) (DB.mk [] [] [] [] [] []) =
      Except.error PyError.notImplementedError ∧
    Cart.checkout (Cart.mk 0 0 0 0 0 0 none) (DB.mk [] [] [] [] [] []) ≠
      Except.error PyError.emptyCartError := by
  refine ⟨rfl, rfl, ?_⟩
  intro hcontra
  exact PyError.noConfusion (Except.error.inj hcontra)

/-- C1 (amended): for every user whose cart has no active (non-deleted) rows,
invoking checkout fails with NotImplementedError — the method body is a bare
raise — and, erroring before any write, creates no Order, OrderItem or Cart
rows (the database value is returned unchanged by the error outcome). -/
theorem checkout_empty_cart_notImplemented (self : Cart) (db : DB) (u : Nat)
    (_h : activeCartRowsFor db u = []) :
    Cart.checkout self db = Except.error PyError.notImplementedError := rfl

/-- Witness for the amended C1 theorem at a concrete empty database. -/
theorem checkout_empty_cart_notImplemented_witness :
    Cart.checkout (Cart.mk 0 0 0 0 0 0 none) (DB.mk [] [] [] [] [] []) =
      Except.error PyError.notImplementedError :=
  checkout_empty_cart_notImplemented (Cart.mk 0 0 0 0 0 0 none)
    (DB.mk [] [] [] [] [] []) 0 rfl

/-- C2 counterexample: a cart row that satisfies price = unit_price ×
quantity (2 × 5.00 = 10.00) stops satisfying it after its quantity is set to
3: the price field is not recomputed by the mutation. -/
theorem cart_price_recompute_counterexample :
    (Cart.mk 1 1 1 2 500 1000 none).price =
      (Cart.mk 1 1 1 2 500 1000 none).unit_price *
        (Cart.mk 1 1 1 2 500 1000 none).quantity ∧
    ((Cart.mk 1 1 1 2 500 1000 none).setQuantity 3).price ≠
      ((Cart.mk 1 1 1 2 500 1000 none).setQuantity 3).unit_price *
        ((Cart.mk 1 1 1 2 500 1000 none).setQuantity 3).quantity := by
  refine ⟨rfl, ?_⟩
  decide

/-- C2 (amended): mutating quantity or unit_price on a Cart row changes
exactly the assigned field and leaves price unchanged — the model performs no
recomputation, so price = unit_price × quantity is not re-established by a
mutation. -/
theorem cart_setters_leave_price (c : Cart) (q p : Int) :
    (c.setQuantity q).price = c.price ∧ (c.setQuantity q).quantity = q ∧
    (c.setUnitPrice p).price = c.price ∧ (c.setUnitPrice p).unit_price = p :=
  ⟨rfl, rfl, rfl, rfl⟩

/-- C3: MenuItem is one of the data-model entities but is absent from the
list of models the admin.py:6-7 loop registers, so not every entity is
exposed to the administrative interface. -/
theorem menuItem_not_registered :
    ModelCls.MenuItem ∈ dataModelEntities ∧
    ModelCls.MenuItem ∉ registeredModels := by decide

/-- C4: whatever the outcome of the inner delete, Cart.reset_cart returns
normally; when the delete raises any exception e, the emitted log ends with
an error-level entry carrying e attached, and when the delete succeeds only
the warning entry is emitted. -/
theorem reset_cart_swallows_delete_failure (self : Cart) (e : PyError) :
    Cart.reset_cart self (.error e) =
      .ok [⟨.warning, "Soft-Deleteting cart", none⟩,
           ⟨.error, "Error deleting cart", some e⟩] ∧
    Cart.reset_cart self (.ok ()) =
      .ok [⟨.warning, "Soft-Deleteting cart", none⟩] :=
  ⟨rfl, rfl⟩

/-- C5: while any MenuItem or OrderItem row still references a category, the
PROTECT policy rejects its deletion with ReferentialIntegrityError and the
database — the Category row included — is left exactly as it was. -/
theorem deleteCategory_protect (db : DB) (cid : Nat)
    (h : categoryReferenced db cid = true) :
    (deleteCategory db cid).2 = some PyError.referentialIntegrityError ∧
    (deleteCategory db cid).1 = db := by
  unfold deleteCategory
  rw [if_pos h]
  exact ⟨rfl, rfl⟩

/-- Witness for the C5 theorem: one category referenced by one menu item. -/
theorem deleteCategory_protect_witness :
    (deleteCategory
        (DB.mk [] [Category.mk 1 "beverages" "Beverages"]
          [MenuItem.mk 1 "coffee" 250 false 1 none] [] [] []) 1).2 =
      some PyError.referentialIntegrityError ∧
    (deleteCategory
        (DB.mk [] [Category.mk 1 "beverages" "Beverages"]
          [MenuItem.mk 1 "coffee" 250 false 1 none] [] [] []) 1).1 =
      DB.mk [] [Category.mk 1 "beverages" "Beverages"]
        [MenuItem.mk 1 "coffee" 250 false 1 none] [] [] [] :=
  deleteCategory_protect
    (DB.mk [] [Category.mk 1 "beverages" "Beverages"]
      [MenuItem.mk 1 "coffee" 250 false 1 none] [] [] []) 1 (by decide)

/-- C6: every entity except Category is soft-deletable (per the
SoftDeleteObject bases in models.py) and soft deletion behaves as a flag:
marking keeps the record's id and data (recoverable), sets the deleted flag,
deleting inside a table never changes the number of stored rows, and any
flagged record is excluded from the default (active) query surface. -/
theorem soft_delete_policy :
    (∀ e, e ∈ dataModelEntities →
      (softDeletable e = true ↔ e ≠ ModelCls.Category)) ∧
    (∀ now r, (sdMark now r).id = r.id ∧ (sdMark now r).data = r.data ∧
      (sdMark now r).deleted_at.isSome = true) ∧
    (∀ now i rows, (deleteInTable now i rows).length = rows.length) ∧
    (∀ (rows : List SDRecord) r, r.deleted_at.isSome = true →
      r ∉ activeRows rows) := by
  refine ⟨?_, ?_, ?_, ?_⟩
  · intro e he
    revert he
    cases e <;> decide
  · intro now r
    refine ⟨?_, ?_, sdMark_deleted_isSome now r⟩ <;>
      (unfold sdMark; split <;> rfl)
  · intro now i rows
    simp [deleteInTable]
  · intro rows r h hmem
    simp only [activeRows, List.mem_filter] at hmem
    rw [Option.isNone_iff_eq_none] at hmem
    rw [hmem.2] at h
    simp at h

/-- Witness for the C6 theorem: Cart is soft-deletable, and a concrete
flagged record is invisible to the active-row query. -/
theorem soft_delete_policy_witness :
    (softDeletable ModelCls.Cart = true ↔
      ModelCls.Cart ≠ ModelCls.Category) ∧
    SDRecord.mk 5 7 (some 3) ∉ activeRows [SDRecord.mk 5 7 (some 3)] :=
  ⟨soft_delete_policy.1 ModelCls.Cart (by decide),
   soft_delete_policy.2.2.2 [SDRecord.mk 5 7 (some 3)]
     (SDRecord.mk 5 7 (some 3)) (by decide)⟩

/-- C7: delete is idempotent for soft-deletable records: the first call
returns normally with the record flagged deleted, and a second call on the
already-deleted record also returns normally and leaves it unchanged — still
flagged — whatever the two call times are. -/
theorem sdDelete_idempotent (t1 t2 : Nat) (r : SDRecord) :
    ∃ r1, sdDelete t1 r = .ok r1 ∧ r1.deleted_at.isSome = true ∧
      sdDelete t2 r1 = .ok r1 := by
  refine ⟨sdMark t1 r, rfl, sdMark_deleted_isSome t1 r, ?_⟩
  unfold sdDelete
  rw [sdMark_of_deleted t2 (sdMark t1 r) (sdMark_deleted_isSome t1 r)]

/-- C8: under the unique_together constraint of Cart.Meta, any fixed
(user, menuitem) pair has at most one active cart row. -/
theorem cart_unique_per_user_item (rows : List Cart) (u m : Nat)
    (h : cartUniqueTogether rows) :
    (cartRowsFor u m (activeCarts rows)).length ≤ 1 := by
  apply cartRowsFor_len_le_one
  exact List.Pairwise.sublist (List.filter_sublist rows) h

/-- Witness for the C8 theorem on a concrete two-row table. -/
theorem cart_unique_per_user_item_witness :
    (cartRowsFor 1 1 (activeCarts
      [Cart.mk 1 1 1 1 100 100 none,
       Cart.mk 2 1 2 1 100 100 none])).length ≤ 1 :=
  cart_unique_per_user_item
    [Cart.mk 1 1 1 1 100 100 none, Cart.mk 2 1 2 1 100 100 none] 1 1
    (by unfold cartUniqueTogether; decide)

/-- C9: after deleting user uid, no surviving order is owned by uid (CASCADE
on Order.user), and every order of another owner survives with all fields
unchanged except that a delivery_crew reference to uid is set to null
(SET_NULL on Order.delivery_crew). -/
theorem deleteUser_order_effects (db : DB) (uid : Nat) :
    (∀ o, o ∈ (deleteUser db uid).orders → o.user ≠ uid) ∧
    (∀ o, o ∈ db.orders → o.user ≠ uid →
      ({ o with delivery_crew :=
          if o.delivery_crew = some uid then none
          else o.delivery_crew } : Order) ∈ (deleteUser db uid).orders) := by
  constructor
  · intro o ho
    have ho2 : o ∈ db.orders.filterMap (userDeleteOrderEffect uid) := ho
    rw [List.mem_filterMap] at ho2
    obtain ⟨a, ha, hfa⟩ := ho2
    unfold userDeleteOrderEffect at hfa
    by_cases hu : a.user = uid
    · rw [if_pos hu] at hfa
      exact Option.noConfusion hfa
    · rw [if_neg hu] at hfa
      have heq := Option.some.inj hfa
      rw [← heq]
      exact hu
  · intro o ho hu
    have heff : userDeleteOrderEffect uid o =
        some { o with delivery_crew :=
          if o.delivery_crew = some uid then none else o.delivery_crew } := by
      unfold userDeleteOrderEffect
      rw [if_neg hu]
    exact List.mem_filterMap.mpr ⟨o, ho, heff⟩

/-- Witness for the C9 theorem: deleting user 1 keeps user 3's order and
nulls its delivery_crew reference to user 1. -/
theorem deleteUser_order_effects_witness :
    ({ Order.mk 11 3 (some 1) false 50 0 none with delivery_crew :=
        if (Order.mk 11 3 (some 1) false 50 0 none).delivery_crew = some 1
        then none
        else (Order.mk 11 3 (some 1) false 50 0 none).delivery_crew } :
      Order) ∈
      (deleteUser
        (DB.mk [1, 3] [] []
          [Order.mk 10 1 (some 3) false 100 0 none,
           Order.mk 11 3 (some 1) false 50 0 none] [] []) 1).orders :=
  (deleteUser_order_effects
    (DB.mk [1, 3] [] []
      [Order.mk 10 1 (some 3) false 100 0 none,
       Order.mk 11 3 (some 1) false 50 0 none] [] []) 1).2
    (Order.mk 11 3 (some 1) false 50 0 none) (by decide) (by decide)

/-- C10: string conversion of an OrderItem always raises: __str__ reads
self.title and OrderItem declares no title attribute, so the lookup fails
with AttributeError for every instance. -/
theorem orderItem_str_attributeError (oi : OrderItem) :
    OrderItem.str oi = Except.error PyError.attributeError := rfl

end MetaBackend
